import Mathlib

/-!
Verification of the adsnap-studio voice-to-image pipeline.

Shallow embedding of the Python sources:
  * `src/services/voice_to_image.py`   (`VoiceToImageService`: `load_model`,
    `transcribe_audio`, `enhance_voice_prompt`, `validate_audio_file`)
  * `src/components/voice_to_image.py` (`render_voice_to_image_section`:
    the transcribe guard and the image-url extraction)
  * `src/services/background_service.py` (`remove_background`)

External collaborators (the Whisper model, librosa resampling, the HTTP
client, the OS filesystem) are modelled as oracle parameters; everything
else is translated from the source line by line.  Machine-level details:
Python string operations are modelled on `List Char`; Python truthiness is
made explicit wherever the source relies on it.
-/

/-! ## Python string primitives -/

/-- Python `str.lower()` restricted to the ASCII range used by the sources. -/
def pyLower (s : String) : String :=
  String.mk (s.data.map Char.toLower)

/-- Python `str.capitalize()`: first character uppercased, the rest lowercased. -/
def pyCapitalize (s : String) : String :=
  match s.data with
  | [] => ""
  | c :: cs => String.mk (Char.toUpper c :: cs.map Char.toLower)

/-- Does `hay` start with `needle`? -/
def charsStartWith : List Char → List Char → Bool
  | [], _ => true
  | _ :: _, [] => false
  | c :: cs, h :: hs => c == h && charsStartWith cs hs

/-- Substring containment on character lists (Python `needle in hay`). -/
def charsContain : List Char → List Char → Bool
  | needle, [] => needle.isEmpty
  | needle, h :: t => charsStartWith needle (h :: t) || charsContain needle t

/-- Python `needle in hay` for strings. -/
def pyContains (needle hay : String) : Bool :=
  charsContain needle.data hay.data

/-- Last character of a character list, if any. -/
def lastChar? : List Char → Option Char
  | [] => none
  | [c] => some c
  | _ :: c :: t => lastChar? (c :: t)

/-- Is `c` one of the sentence-ending characters of the source,
`('.', '!', '?')`? -/
def isSentenceEnd (c : Char) : Bool :=
  c == '.' || c == '!' || c == '?'

/-- Python `s.endswith(('.', '!', '?'))` for one-character suffixes:
the last character is a sentence end. -/
def pyEndsPunct (s : String) : Bool :=
  match lastChar? s.data with
  | some c => isSentenceEnd c
  | none => false

/-- Index of the last `'.'` in a character list. -/
def rfindDot : List Char → Option Nat
  | [] => none
  | h :: t =>
    match rfindDot t with
    | some i => some (i + 1)
    | none => if h == '.' then some 0 else none

/-- `os.path.splitext(name)[1]` for a bare file name (no path separators):
the extension starts at the last dot, and is empty when every character
before that dot is itself a dot (CPython's leading-dot rule). -/
def splitext_ext (name : String) : String :=
  match rfindDot name.data with
  | none => ""
  | some i =>
    if (name.data.take i).any (fun ch => !(ch == '.')) then
      String.mk (name.data.drop i)
    else ""

/-! ## Prompt Enhancer (`enhance_voice_prompt`, voice_to_image.py lines 233-266) -/

/-- The fixed keyword set of `enhance_voice_prompt` (lines 250-253). -/
def photography_keywords : List String :=
  ["professional", "high quality", "studio lighting", "clean background",
   "product photography", "commercial", "advertising"]

/-- The fixed qualifier suffix appended when no keyword is present (line 259). -/
def qualifier_suffix : String :=
  ", professional product photography, studio lighting, clean background"

/-- `VoiceToImageService.enhance_voice_prompt` (lines 233-266): empty text
maps to empty; otherwise append the qualifier suffix when no photography
keyword occurs (case-insensitively), capitalize, and ensure a trailing
sentence end. -/
def enhance_voice_prompt (transcribed_text : String) : String :=
  if transcribed_text = "" then ""
  else
    let has_photography_keywords :=
      photography_keywords.any (fun keyword => pyContains keyword (pyLower transcribed_text))
    let enhanced_prompt :=
      if has_photography_keywords then transcribed_text
      else transcribed_text ++ qualifier_suffix
    let enhanced_prompt := pyCapitalize enhanced_prompt
    if pyEndsPunct enhanced_prompt then enhanced_prompt
    else enhanced_prompt ++ "."

/-! ## Audio Ingestion (`validate_audio_file`, voice_to_image.py lines 268-298) -/

/-- A Streamlit upload: declared file name and raw bytes. -/
structure UploadedFile where
  name : String
  content : List Nat
deriving DecidableEq

/-- `seek(0, 2); tell()`: the byte size of the upload. -/
def UploadedFile.size (f : UploadedFile) : Nat :=
  f.content.length

/-- The allow-list of `validate_audio_file` (line 291). -/
def allowed_extensions : List String :=
  [".wav", ".mp3", ".m4a", ".flac", ".ogg"]

/-- `VoiceToImageService.validate_audio_file` (lines 268-298): reject a null
upload, an upload above 25 MiB, or an upload whose lowercased extension is
not in the allow-list. -/
def validate_audio_file (audio_file : Option UploadedFile) : Bool :=
  match audio_file with
  | none => false
  | some f =>
    if f.size > 25 * 1024 * 1024 then false
    else
      let file_extension := pyLower (splitext_ext f.name)
      if ¬ (file_extension ∈ allowed_extensions) then false
      else true

/-! ## Audio Normalizer (voice_to_image.py lines 66-81)

`sf.read` returns a 1-D array for a mono file and a 2-D `(frames, channels)`
array otherwise; the source downmixes when `len(shape) > 1 and shape[1] > 1`
and resamples via `librosa.resample` when the native rate is not 16 kHz.
The resampler itself belongs to librosa and is a parameter of the model. -/

/-- A decoded numpy audio buffer: one-dimensional, or two-dimensional with a
channel count (`shape[1]`) and one row of channel samples per frame. -/
inductive NpAudio where
  | one : List ℚ → NpAudio
  | multi : Nat → List (List ℚ) → NpAudio
deriving DecidableEq

/-- `np.mean` of one frame's channel samples (axis 1). -/
def npMean (row : List ℚ) : ℚ :=
  row.sum / row.length

/-- Lines 69-70: average the channels of each frame when the array is
two-dimensional with more than one channel. -/
def downmix : NpAudio → NpAudio
  | NpAudio.one xs => NpAudio.one xs
  | NpAudio.multi c rows =>
    if c > 1 then NpAudio.one (rows.map npMean) else NpAudio.multi c rows

/-- `librosa.resample` lifted to the buffer shape: the supplied 1-D resampler
`f` is applied along the last axis. -/
def resampleNp (f : List ℚ → Nat → Nat → List ℚ) :
    NpAudio → Nat → Nat → NpAudio
  | NpAudio.one xs, origSr, targetSr => NpAudio.one (f xs origSr targetSr)
  | NpAudio.multi c rows, origSr, targetSr =>
    NpAudio.multi c (rows.map (fun r => f r origSr targetSr))

/-- Lines 66-81 up to the processor call: downmix, resample when the native
rate differs from 16000, and hand the result to the processor together with
the literal `sampling_rate=16000` of line 79. -/
def normalize_audio (f : List ℚ → Nat → Nat → List ℚ) (audio_data : NpAudio)
    (sample_rate : Nat) : NpAudio × Nat :=
  let audio_data := downmix audio_data
  let audio_data :=
    if sample_rate ≠ 16000 then resampleNp f audio_data sample_rate 16000
    else audio_data
  (audio_data, 16000)

/-- Is the buffer one-dimensional (a mono sample sequence)? -/
def isMono : NpAudio → Bool
  | NpAudio.one _ => true
  | NpAudio.multi _ _ => false

/-- A mono (1-D) or stereo (2-D, two channels) decoded buffer — the inputs
the normalization claim quantifies over. -/
def isMonoOrStereo : NpAudio → Bool
  | NpAudio.one _ => true
  | NpAudio.multi c _ => c == 2

/-! ## Transcription Engine state and `load_model` (voice_to_image.py lines 11-41) -/

/-- The mutable fields of `VoiceToImageService`: the loaded model (named
`openai/whisper-<size>`), the processor, the loaded flag, the service's
compute device and the device the model currently sits on. -/
structure ServiceState where
  model : Option String
  processor : Option String
  model_loaded : Bool
  device : String
  modelDevice : Option String
deriving DecidableEq

/-- `VoiceToImageService.load_model` (lines 19-41).  `proc_ok` and `model_ok`
say whether the two `from_pretrained` fetches succeed; an exception is caught
and turned into a `False` return.  The guard is
`if not self.model_loaded or self.model is None` — the requested size is
never compared with the resident model. -/
def load_model (st : ServiceState) (model_size : String)
    (proc_ok model_ok : Bool) : Bool × ServiceState :=
  if st.model_loaded = false ∨ st.model = none then
    if proc_ok = true then
      if model_ok = true then
        (true, { st with
                  processor := some ("openai/whisper-" ++ model_size),
                  model := some ("openai/whisper-" ++ model_size),
                  modelDevice := some st.device,
                  model_loaded := true })
      else
        (false, { st with processor := some ("openai/whisper-" ++ model_size) })
    else (false, st)
  else (true, st)

/-! ## `transcribe_audio` (voice_to_image.py lines 43-231)

The first `try`/`except` (lines 58-114) returns on every path: the `try`
block ends in the `return` of line 100 and the `except` of line 113 returns
as well, so the "multi-method transcription fallback" of lines 116-231 is
unreachable.  The embedding therefore is the code of lines 54-114; the dead
fallback block is embedded separately below as `multi_method_fallback`. -/

/-- One invocation of the speech model.  `hfGenerate` is the single reachable
invocation (`self.model.generate`, line 88); the `whisper*` kinds are the
three `self.model.transcribe` calls of the unreachable fallback block. -/
inductive AttemptKind where
  | hfGenerate
  | whisperFile
  | whisperArray
  | whisperCpu
deriving DecidableEq

/-- Environment oracle for one `transcribe_audio` request: outcomes of the
model fetches, of the temp-file write (line 61), of `sf.read` (line 66),
the librosa resampler, and of the model inference on the prepared features
(lines 77-98, `none` meaning the call raised). -/
structure TranscribeOracle where
  proc_ok : Bool
  model_ok : Bool
  write_ok : Bool
  read_result : Option (NpAudio × Nat)
  resample : List ℚ → Nat → Nat → List ℚ
  infer : NpAudio → Option String

/-- Observable outcome of one `transcribe_audio` request: the returned text,
the returned info dictionary, the model invocations that were made, and how
many of the temp files created for the request still exist on disk after it
returns. -/
structure TranscribeResult where
  text : String
  info : List (String × String)
  attempts : List AttemptKind
  tempFilesRemaining : Nat
deriving DecidableEq

/-- Does the returned info dictionary carry an `"error"` entry? -/
def resultHasError (r : TranscribeResult) : Bool :=
  r.info.any (fun p => p.1 == "error")

/-- `VoiceToImageService.transcribe_audio` (lines 43-231).  Control flow of
the reachable part: ensure the model is loaded (lines 54-56); write the
upload into a fresh temp file (lines 60-62; if the write raises, the file
leaks because `tmp_path` was never recorded and the `finally` of line 106
is not yet in scope); decode, normalize and run the model (lines 64-104),
with the `finally` of lines 106-111 removing the temp file; any exception is
caught at line 113 and turned into `("", error-dict)`.  Lines 116-231 are
unreachable. -/
def transcribe_audio (st : ServiceState) (audio_file : UploadedFile)
    (language : Option String) (o : TranscribeOracle) :
    TranscribeResult × ServiceState :=
  match (if st.model_loaded = false
         then load_model st "base" o.proc_ok o.model_ok
         else (true, st)) with
  | (false, st1) =>
    ({ text := "", info := [("error", "Failed to load Whisper model")],
       attempts := [], tempFilesRemaining := 0 }, st1)
  | (true, st1) =>
    if o.write_ok = false then
      ({ text := "", info := [("error", "Error during transcription")],
         attempts := [], tempFilesRemaining := 1 }, st1)
    else
      match o.read_result with
      | none =>
        ({ text := "", info := [("error", "Error during transcription")],
           attempts := [], tempFilesRemaining := 0 }, st1)
      | some (audio_data, sample_rate) =>
        match o.infer (normalize_audio o.resample audio_data sample_rate).1 with
        | none =>
          ({ text := "", info := [("error", "Error during transcription")],
             attempts := [AttemptKind.hfGenerate], tempFilesRemaining := 0 }, st1)
        | some transcription =>
          ({ text := transcription,
             info := [("language", language.getD "auto-detected"),
                      ("model", "openai/whisper"),
                      ("device", st1.device)],
             attempts := [AttemptKind.hfGenerate], tempFilesRemaining := 0 }, st1)

/-- The unreachable "multi-method transcription fallback" block
(lines 169-210), embedded on its own: Method 1 runs the model on the file
path; only if it raised and a decoded array is available does Method 2 run
the model on the array, once; Method 3 (CPU) runs only if no result was
produced.  Returns the result (if any) and the invocations in order. -/
def multi_method_fallback (array_available : Bool)
    (fileOutcome arrayOutcome cpuOutcome : Option String) :
    Option String × List AttemptKind :=
  match fileOutcome with
  | some t => (some t, [AttemptKind.whisperFile])
  | none =>
    if array_available then
      match arrayOutcome with
      | some t => (some t, [AttemptKind.whisperFile, AttemptKind.whisperArray])
      | none =>
        match cpuOutcome with
        | some t =>
          (some t, [AttemptKind.whisperFile, AttemptKind.whisperArray,
                    AttemptKind.whisperCpu])
        | none =>
          (none, [AttemptKind.whisperFile, AttemptKind.whisperArray,
                  AttemptKind.whisperCpu])
    else
      match cpuOutcome with
      | some t => (some t, [AttemptKind.whisperFile, AttemptKind.whisperCpu])
      | none => (none, [AttemptKind.whisperFile, AttemptKind.whisperCpu])

/-! ## Component transcribe guard (components/voice_to_image.py lines 70-77) -/

/-- The transcribe flow of `render_voice_to_image_section`: with an upload
present and the button pressed, validate first, then load the model, then
transcribe.  `none` means no audio processing was performed. -/
def transcribe_flow (st : ServiceState) (upload : Option UploadedFile)
    (model_size : String) (language : Option String) (o : TranscribeOracle) :
    Option (TranscribeResult × ServiceState) :=
  match upload with
  | none => none
  | some f =>
    if validate_audio_file (some f) then
      match load_model st model_size o.proc_ok o.model_ok with
      | (true, st1) => some (transcribe_audio st1 f language o)
      | (false, _) => none
    else none

/-! ## Image-generation response parsing (components/voice_to_image.py lines 176-208) -/

/-- A Python/JSON value as handled by the response parser. -/
inductive Json where
  | null : Json
  | bool : Bool → Json
  | num : Int → Json
  | str : String → Json
  | arr : List Json → Json
  | obj : List (String × Json) → Json

/-- Dictionary lookup (`key in d` / `d[key]`), first binding wins. -/
def jlookup : List (String × Json) → String → Option Json
  | [], _ => none
  | (k, v) :: t, key => if k = key then some v else jlookup t key

/-- `d[key]` on an arbitrary value: only dictionaries have keys. -/
def getKey (j : Json) (key : String) : Option Json :=
  match j with
  | Json.obj l => jlookup l key
  | _ => none

/-- Python truthiness of a JSON value. -/
def truthy : Json → Bool
  | Json.null => false
  | Json.bool b => b
  | Json.num n => decide (n ≠ 0)
  | Json.str s => !(s == "")
  | Json.arr l => !l.isEmpty
  | Json.obj l => !l.isEmpty

/-- Python `v[0]`: first element of a list, first character of a non-empty
string; anything else raises (`none`). -/
def index0 : Json → Option Json
  | Json.arr (x :: _) => some x
  | Json.str s =>
    match s.data with
    | c :: _ => some (Json.str (String.mk [c]))
    | [] => none
  | _ => none

/-- Lines 187-191 (and 193-196): inside the selected `result` element,
prefer a truthy `urls` (taking `urls[0]`) and fall back to `url`.
`Except.error` models a raised exception (caught at line 226). -/
def pick_urls_or_url (d : Json) : Except Unit (Option Json) :=
  match getKey d "urls" with
  | some u =>
    if truthy u then
      match index0 u with
      | some x => Except.ok (some x)
      | none => Except.error ()
    else
      match getKey d "url" with
      | some v => Except.ok (some v)
      | none => Except.ok none
  | none =>
    match getKey d "url" with
    | some v => Except.ok (some v)
    | none => Except.ok none

/-- The `elif` chain of lines 198-208: `result_url`, then `url`, then a
truthy `result_urls` (taking `result_urls[0]`). -/
def elif_shapes (r : Json) : Except Unit (Option Json) :=
  match getKey r "result_url" with
  | some v => Except.ok (some v)
  | none =>
    match getKey r "url" with
    | some v => Except.ok (some v)
    | none =>
      match getKey r "result_urls" with
      | some v =>
        if truthy v then
          match index0 v with
          | some x => Except.ok (some x)
          | none => Except.error ()
        else Except.ok none
      | none => Except.ok none

/-- Lines 176-208: the value assigned to `image_url` (`Except.ok none` when
it stays `None`, `Except.error` when the extraction raised).  When the
`result` key is present with a truthy value the code commits to that branch
and never reaches the `elif` chain. -/
def extract_image_url (result : Option Json) : Except Unit (Option Json) :=
  match result with
  | none => Except.ok none
  | some r =>
    if truthy r = false then Except.ok none
    else
      match r with
      | Json.obj _ =>
        (match getKey r "result" with
         | some rv =>
           if truthy rv then
             match rv with
             | Json.arr (first_result :: _) =>
               (match first_result with
                | Json.obj _ => pick_urls_or_url first_result
                | _ => Except.ok none)
             | Json.obj _ => pick_urls_or_url rv
             | _ => Except.ok none
           else elif_shapes r
         | none => elif_shapes r)
      | _ => Except.ok none

/-- Lines 210-224: generation is recorded as successful exactly when a
truthy `image_url` was extracted; otherwise (including an extraction
exception) the failure message is shown. -/
def generation_success (result : Option Json) : Bool :=
  match extract_image_url result with
  | Except.ok (some v) => truthy v
  | _ => false

/-- The `result`-branch of the extraction (lines 182-196) as a function of
the truthy `result` value alone: probe the first list element when the
value is a list, probe the value itself when it is a dict, extract nothing
otherwise.  Used to state that the extraction commits to this branch. -/
def extract_from_result_value (rv : Json) : Except Unit (Option Json) :=
  match rv with
  | Json.arr (first_result :: _) =>
    (match first_result with
     | Json.obj _ => pick_urls_or_url first_result
     | _ => Except.ok none)
  | Json.obj _ => pick_urls_or_url rv
  | _ => Except.ok none

/-- Does the dictionary lack a present-and-truthy `result` entry (the
condition under which lines 198-208, the `elif` chain, are reached)? -/
def no_truthy_result (l : List (String × Json)) : Bool :=
  match jlookup l "result" with
  | some rv => !(truthy rv)
  | none => true

/-! ### The spec's shape-matcher reading of the parser

These definitions follow the specification's words — "try each shape in
that priority order, first match wins" over the shapes
`result: [ urls: [string] ]`, `result: [ url: string ]`, `result_url`,
`url`, `result_urls: [string]` — to be compared with `extract_image_url`
above, which was translated from the source. -/

/-- Spec shape 1: `result` is a list whose first element has a string list
under `urls`. -/
def shape_result_urls_first (r : Json) : Option String :=
  match getKey r "result" with
  | some (Json.arr (first :: _)) =>
    (match getKey first "urls" with
     | some (Json.arr (Json.str u :: _)) => some u
     | _ => none)
  | _ => none

/-- Spec shape 2: `result` is a list whose first element has a string under
`url`. -/
def shape_result_url_first (r : Json) : Option String :=
  match getKey r "result" with
  | some (Json.arr (first :: _)) =>
    (match getKey first "url" with
     | some (Json.str u) => some u
     | _ => none)
  | _ => none

/-- Spec shape 3: a string under `result_url`. -/
def shape_result_url (r : Json) : Option String :=
  match getKey r "result_url" with
  | some (Json.str u) => some u
  | _ => none

/-- Spec shape 4: a string under `url`. -/
def shape_url (r : Json) : Option String :=
  match getKey r "url" with
  | some (Json.str u) => some u
  | _ => none

/-- Spec shape 5: a string list under `result_urls`. -/
def shape_result_urls (r : Json) : Option String :=
  match getKey r "result_urls" with
  | some (Json.arr (Json.str u :: _)) => some u
  | _ => none

/-- The extraction the spec describes: the five shapes tried in priority
order, first match wins. -/
def spec_shape_extract (r : Json) : Option String :=
  match shape_result_urls_first r with
  | some u => some u
  | none =>
    match shape_result_url_first r with
    | some u => some u
    | none =>
      match shape_result_url r with
      | some u => some u
      | none =>
        match shape_url r with
        | some u => some u
        | none => shape_result_urls r

/-! ## Background removal (`remove_background`, background_service.py lines 5-76) -/

/-- The HTTP request `remove_background` would issue: endpoint, which of the
two image fields the payload carries, and the moderation flag. -/
structure BgRequest where
  api_token : String
  endpoint : String
  has_image_url : Bool
  has_file : Bool
  content_moderation : Bool
deriving DecidableEq

/-- Python truthiness of an optional string argument. -/
def pyTruthyStr : Option String → Bool
  | some s => !(s == "")
  | none => false

/-- Python truthiness of an optional bytes argument. -/
def pyTruthyBytes : Option (List Nat) → Bool
  | some b => !b.isEmpty
  | none => false

/-- `remove_background` (lines 5-51) up to the `requests.post` call: build
the payload from a truthy `image_url`, else a truthy `image_data`, else
raise `ValueError` — before any HTTP request is made.  `Except.ok` carries
the request that is then posted. -/
def remove_background (api_key : String) (image_data : Option (List Nat))
    (image_url : Option String) (content_moderation : Bool) :
    Except String BgRequest :=
  if pyTruthyStr image_url = true then
    Except.ok { api_token := api_key,
                endpoint := "https://engine.prod.bria-api.com/v1/background/remove",
                has_image_url := true, has_file := false,
                content_moderation := content_moderation }
  else if pyTruthyBytes image_data = true then
    Except.ok { api_token := api_key,
                endpoint := "https://engine.prod.bria-api.com/v1/background/remove",
                has_image_url := false, has_file := true,
                content_moderation := content_moderation }
  else
    Except.error "Either image_data or image_url must be provided"

/-! ## Concrete instances used by the claims -/

/-- A service state with the base-size model resident. -/
def st_loaded : ServiceState :=
  { model := some "openai/whisper-base", processor := some "openai/whisper-base",
    model_loaded := true, device := "cpu", modelDevice := some "cpu" }

/-- The freshly constructed service state (`__init__`, lines 12-17). -/
def st_unloaded : ServiceState :=
  { model := none, processor := none, model_loaded := false,
    device := "cpu", modelDevice := none }

/-- A small wav upload. -/
def f_wav : UploadedFile :=
  { name := "clip.wav", content := [82, 73] }

/-- A request environment in which the temp write and the decode succeed
(so an in-memory decoded array exists) but every model invocation raises. -/
def o_fileFail : TranscribeOracle :=
  { proc_ok := true, model_ok := true, write_ok := true,
    read_result := some (NpAudio.one [], 16000),
    resample := fun xs _ _ => xs,
    infer := fun _ => none }

/-- A request environment in which writing the upload into the temp file
raises. -/
def o_writeFail : TranscribeOracle :=
  { o_fileFail with write_ok := false }

/-- Response of the shape `result: [ urls: [string] ]`. -/
def ex_urls_response : Json :=
  Json.obj [("result", Json.arr [Json.obj [("urls", Json.arr [Json.str "http://x/img.png"])]])]

/-- Response of the shape `result_url: string`. -/
def ex_result_url_response : Json :=
  Json.obj [("result_url", Json.str "http://y")]

/-- An unrecognized response shape. -/
def ex_unrecognized : Json :=
  Json.obj [("foo", Json.str "bar")]

/-- A response whose truthy `result` value matches none of the `result`
shapes although `result_url` — a later shape — is present. -/
def mixed_response : Json :=
  Json.obj [("result", Json.arr [Json.obj [("note", Json.str "no urls here")]]),
            ("result_url", Json.str "http://y")]

/-! ## Helper lemmas -/

theorem lastChar?_map (f : Char → Char) (l : List Char) :
    lastChar? (l.map f) = (lastChar? l).map f := by
  induction l with
  | nil => rfl
  | cons a t ih =>
    cases t with
    | nil => rfl
    | cons b t2 => simpa [lastChar?] using ih

theorem isSentenceEnd_cases (c : Char) (h : isSentenceEnd c = true) :
    c = '.' ∨ c = '!' ∨ c = '?' := by
  have h2 : (c = '.' ∨ c = '!') ∨ c = '?' := by simpa [isSentenceEnd] using h
  tauto

theorem isSentenceEnd_toUpper (c : Char) (h : isSentenceEnd c = true) :
    isSentenceEnd (Char.toUpper c) = true := by
  rcases isSentenceEnd_cases c h with h1 | h1 | h1 <;> subst h1 <;> decide

theorem isSentenceEnd_toLower (c : Char) (h : isSentenceEnd c = true) :
    isSentenceEnd (Char.toLower c) = true := by
  rcases isSentenceEnd_cases c h with h1 | h1 | h1 <;> subst h1 <;> decide

theorem lastChar?_pyCapitalize (s : String) (c : Char)
    (h : lastChar? s.data = some c) :
    lastChar? (pyCapitalize s).data = some (Char.toUpper c) ∨
    lastChar? (pyCapitalize s).data = some (Char.toLower c) := by
  cases hd : s.data with
  | nil => rw [hd] at h; simp [lastChar?] at h
  | cons a t =>
    rw [hd] at h
    have hdata : (pyCapitalize s).data = Char.toUpper a :: t.map Char.toLower := by
      unfold pyCapitalize
      rw [hd]
    rw [hdata]
    cases t with
    | nil =>
      left
      simp [lastChar?] at h ⊢
      exact congrArg Char.toUpper h
    | cons b t2 =>
      right
      have h2 : lastChar? (b :: t2) = some c := by simpa [lastChar?] using h
      have h3 : lastChar? ((b :: t2).map Char.toLower) = some (Char.toLower c) := by
        rw [lastChar?_map, h2]; rfl
      simpa [lastChar?] using h3

theorem pyEndsPunct_pyCapitalize (s : String) (hp : pyEndsPunct s = true) :
    pyEndsPunct (pyCapitalize s) = true := by
  unfold pyEndsPunct at hp ⊢
  cases hl : lastChar? s.data with
  | none => rw [hl] at hp; exact absurd hp (by simp)
  | some c =>
    rw [hl] at hp
    rcases lastChar?_pyCapitalize s c hl with h2 | h2 <;> rw [h2]
    · exact isSentenceEnd_toUpper c hp
    · exact isSentenceEnd_toLower c hp

theorem pyCapitalize_length (s : String) :
    (pyCapitalize s).data.length = s.data.length := by
  cases hd : s.data with
  | nil => unfold pyCapitalize; rw [hd]
  | cons a t => unfold pyCapitalize; rw [hd]; simp

/-! ## Claims -/

/-- Claim C4: `enhance_voice_prompt` on `"a red sneaker on a table"` (which
contains no photography keyword) yields exactly the capitalized text with
the qualifier suffix appended and a trailing period added. -/
theorem enhance_red_sneaker :
    enhance_voice_prompt "a red sneaker on a table" =
      "A red sneaker on a table, professional product photography, studio lighting, clean background." := by
  decide

/-- Claim C5: on input that already contains a photography keyword
(case-insensitively) and already ends in `'.'`, `'!'` or `'?'`,
`enhance_voice_prompt` appends nothing — neither a second qualifier suffix
nor a period: the output is just the capitalized input, of equal length. -/
theorem enhance_idempotent_on_enhanced (s : String)
    (hk : ∃ k, k ∈ photography_keywords ∧ pyContains k (pyLower s) = true)
    (hp : pyEndsPunct s = true) :
    enhance_voice_prompt s = pyCapitalize s ∧
    (enhance_voice_prompt s).data.length = s.data.length := by
  have hs : s ≠ "" := by
    intro h
    subst h
    exact absurd hp (by decide)
  have hany : photography_keywords.any (fun k => pyContains k (pyLower s)) = true := by
    rcases hk with ⟨k, hmem, hck⟩
    exact List.any_eq_true.mpr ⟨k, hmem, hck⟩
  have hcap : pyEndsPunct (pyCapitalize s) = true := pyEndsPunct_pyCapitalize s hp
  have hmain : enhance_voice_prompt s = pyCapitalize s := by
    simp [enhance_voice_prompt, hs, hany, hcap]
  exact ⟨hmain, by rw [hmain]; exact pyCapitalize_length s⟩

/-- Claim C5 witness: a concrete already-enhanced prompt is returned with
nothing appended. -/
theorem enhance_idempotent_witness :
    enhance_voice_prompt "a professional photography shot." =
      pyCapitalize "a professional photography shot." ∧
    (enhance_voice_prompt "a professional photography shot.").data.length =
      ("a professional photography shot." : String).data.length :=
  enhance_idempotent_on_enhanced "a professional photography shot."
    ⟨"professional", by decide, by decide⟩ (by decide)

/-- Claim C3: a null upload, an upload above 25 MiB, or an upload whose
lowercased extension is outside the allow-list is rejected by
`validate_audio_file`, and the component's transcribe flow performs no
audio processing at all for it. -/
theorem validate_rejects_bad_upload (u : Option UploadedFile)
    (h : u = none ∨ ∃ f, u = some f ∧
      (f.size > 25 * 1024 * 1024 ∨ pyLower (splitext_ext f.name) ∉ allowed_extensions)) :
    validate_audio_file u = false ∧
    ∀ st model_size language o, transcribe_flow st u model_size language o = none := by
  have hv : validate_audio_file u = false := by
    rcases h with h | ⟨f, rfl, h⟩
    · subst h; rfl
    · rcases h with h | h
      · simp [validate_audio_file, h]
      · simp [validate_audio_file, h]
  refine ⟨hv, ?_⟩
  intro st model_size language o
  rcases h with h | ⟨f, rfl, _⟩
  · subst h; rfl
  · simp [transcribe_flow, hv]

/-- Claim C3 witness: a 26-MiB upload and a `.pdf` upload are both rejected
with no processing. -/
theorem validate_rejects_witness :
    validate_audio_file (some { name := "a.pdf", content := [] }) = false ∧
    transcribe_flow st_unloaded (some { name := "a.pdf", content := [] })
      "base" none o_fileFail = none :=
  ⟨(validate_rejects_bad_upload _
      (Or.inr ⟨_, rfl, Or.inr (by decide)⟩)).1,
   (validate_rejects_bad_upload _
      (Or.inr ⟨_, rfl, Or.inr (by decide)⟩)).2 st_unloaded "base" none o_fileFail⟩

/-- Claim C6 counterexample: with the base-size model resident,
`load_model "large"` is a no-op that returns `True` — it does not fetch a
model of the requested size, although no model of size `large` is resident. -/
theorem load_model_ignores_requested_size :
    st_loaded.model_loaded = true ∧
    st_loaded.model ≠ some ("openai/whisper-" ++ "large") ∧
    load_model st_loaded "large" true true = (true, st_loaded) ∧
    (load_model st_loaded "large" true true).2.model = some "openai/whisper-base" :=
  ⟨rfl, by decide, rfl, rfl⟩

/-- Claim C6 (amended): `load_model` is idempotent keyed on the loaded flag,
not on the requested size: whenever any model is resident it is a no-op for
every requested size; only from the unloaded state does it fetch and load a
model of the requested size, transitioning to loaded. -/
theorem load_model_keyed_on_loaded_flag (st : ServiceState) (s : String)
    (po mo : Bool) :
    (st.model_loaded = true → st.model.isSome = true →
      load_model st s po mo = (true, st)) ∧
    (st.model_loaded = false → po = true → mo = true →
      (load_model st s po mo).1 = true ∧
      (load_model st s po mo).2.model = some ("openai/whisper-" ++ s) ∧
      (load_model st s po mo).2.model_loaded = true) := by
  constructor
  · intro hl hm
    obtain ⟨m, hm2⟩ := Option.isSome_iff_exists.mp hm
    simp [load_model, hl, hm2]
  · intro hl hpo hmo
    simp [load_model, hl, hpo, hmo]

/-- Claim C6 witness: the no-op on a resident model and the genuine load
from the unloaded state, at concrete states. -/
theorem load_model_keyed_witness :
    load_model st_loaded "large" true true = (true, st_loaded) ∧
    (load_model st_unloaded "base" true true).2.model =
      some ("openai/whisper-" ++ "base") ∧
    (load_model st_unloaded "base" true true).2.model_loaded = true :=
  ⟨(load_model_keyed_on_loaded_flag st_loaded "large" true true).1 rfl rfl,
   ((load_model_keyed_on_loaded_flag st_unloaded "base" true true).2 rfl rfl rfl).2.1,
   ((load_model_keyed_on_loaded_flag st_unloaded "base" true true).2 rfl rfl rfl).2.2⟩

/-- Claim C7: for every mono or stereo decoded buffer at any native sample
rate, normalization hands the model a mono (1-D) buffer tagged with exactly
16000 Hz; stereo input is averaged to mono and a native rate other than
16000 goes through the resampler. -/
theorem normalize_mono_16k (f : List ℚ → Nat → Nat → List ℚ) (a : NpAudio)
    (sr : Nat) (h : isMonoOrStereo a = true) :
    isMono (normalize_audio f a sr).1 = true ∧
    (normalize_audio f a sr).2 = 16000 ∧
    (sr ≠ 16000 → (normalize_audio f a sr).1 = resampleNp f (downmix a) sr 16000) ∧
    (∀ rows, a = NpAudio.multi 2 rows → downmix a = NpAudio.one (rows.map npMean)) := by
  cases a with
  | one xs =>
    by_cases hsr : sr = 16000 <;>
      simp [normalize_audio, downmix, resampleNp, isMono, hsr]
  | multi c rows =>
    have hc : c = 2 := by simpa [isMonoOrStereo] using h
    subst hc
    by_cases hsr : sr = 16000 <;>
      simp [normalize_audio, downmix, resampleNp, isMono, hsr]

/-- Claim C7 witness: a stereo buffer at 44100 Hz comes out mono at 16000. -/
theorem normalize_mono_16k_witness :
    isMonoOrStereo (NpAudio.multi 2 [[1, 1]]) = true ∧
    isMono (normalize_audio (fun xs _ _ => xs) (NpAudio.multi 2 [[1, 1]]) 44100).1 = true ∧
    (normalize_audio (fun xs _ _ => xs) (NpAudio.multi 2 [[1, 1]]) 44100).2 = 16000 :=
  ⟨by decide,
   (normalize_mono_16k (fun xs _ _ => xs) (NpAudio.multi 2 [[1, 1]]) 44100 (by decide)).1,
   (normalize_mono_16k (fun xs _ _ => xs) (NpAudio.multi 2 [[1, 1]]) 44100 (by decide)).2.1⟩

/-- Claim C1: in a request environment where the decode succeeded (so an
in-memory array is available) but every model invocation raises,
`transcribe_audio` makes its single in-memory inference attempt and returns
the error tuple without ever invoking an array-based fallback attempt: the
multi-method fallback of lines 169-210 — which, run on its own with a
failing file attempt and an available array, would invoke the array attempt
exactly once and the CPU attempt only after it — is unreachable, since both
branches of the `try`/`except` at lines 58-114 return first. -/
theorem transcribe_no_array_attempt :
    (transcribe_audio st_loaded f_wav none o_fileFail).1.attempts =
      [AttemptKind.hfGenerate] ∧
    (transcribe_audio st_loaded f_wav none o_fileFail).1.attempts.count
      AttemptKind.whisperArray = 0 ∧
    (transcribe_audio st_loaded f_wav none o_fileFail).1.text = "" ∧
    multi_method_fallback true none (some "recovered") none =
      (some "recovered", [AttemptKind.whisperFile, AttemptKind.whisperArray]) ∧
    multi_method_fallback true none none none =
      (none, [AttemptKind.whisperFile, AttemptKind.whisperArray,
              AttemptKind.whisperCpu]) :=
  ⟨rfl, rfl, rfl, rfl, rfl⟩

/-- Claim C2: whenever every model invocation of a request fails,
`transcribe_audio` returns the empty string together with an info
dictionary carrying a single `"error"` entry — no partial text. -/
theorem transcribe_all_fail (st : ServiceState) (f : UploadedFile)
    (language : Option String) (o : TranscribeOracle)
    (h : ∀ a, o.infer a = none) :
    (transcribe_audio st f language o).1.text = "" ∧
    resultHasError (transcribe_audio st f language o).1 = true := by
  unfold transcribe_audio
  split
  · exact ⟨rfl, rfl⟩
  · split
    · exact ⟨rfl, rfl⟩
    · split
      · exact ⟨rfl, rfl⟩
      · rw [h]
        exact ⟨rfl, rfl⟩

/-- Claim C2 witness: a concrete request whose inference fails returns the
empty string with an error entry. -/
theorem transcribe_all_fail_witness :
    (transcribe_audio st_loaded f_wav none o_fileFail).1.text = "" ∧
    resultHasError (transcribe_audio st_loaded f_wav none o_fileFail).1 = true :=
  transcribe_all_fail st_loaded f_wav none o_fileFail (fun _ => rfl)

/-- Claim C9 counterexample: when writing the upload into the temp file
raises, the request still completes (empty text, error reported) but the
temp file created for it is left on disk — the cleanup `finally` only
covers the code after the write. -/
theorem temp_leak_on_write_error :
    (transcribe_audio st_loaded f_wav none o_writeFail).1.tempFilesRemaining = 1 ∧
    (transcribe_audio st_loaded f_wav none o_writeFail).1.text = "" ∧
    resultHasError (transcribe_audio st_loaded f_wav none o_writeFail).1 = true :=
  ⟨rfl, rfl, rfl⟩

/-- Claim C9 (amended): every temporary file created for a transcription
request is gone when the request completes — on success, transcription
failure, and decode failure alike — provided the initial write of the
upload into the temp file did not itself raise; on that one path the file
leaks. -/
theorem temp_cleanup_when_write_succeeds (st : ServiceState)
    (f : UploadedFile) (language : Option String) (o : TranscribeOracle)
    (h : o.write_ok = true) :
    (transcribe_audio st f language o).1.tempFilesRemaining = 0 := by
  unfold transcribe_audio
  split
  · rfl
  · rw [if_neg (by simp [h])]
    split
    · rfl
    · split <;> rfl

/-- Claim C9 witness: a concrete failing request whose write succeeded
leaves no temp file behind. -/
theorem temp_cleanup_witness :
    (transcribe_audio st_loaded f_wav none o_fileFail).1.tempFilesRemaining = 0 :=
  temp_cleanup_when_write_succeeds st_loaded f_wav none o_fileFail rfl

/-- When the dictionary has a present, truthy `result` entry, the
extraction is the `result`-branch computation on that value alone: no other
key of the response can influence the outcome. -/
theorem extract_result_branch (l : List (String × Json)) (rv : Json)
    (h1 : jlookup l "result" = some rv) (h2 : truthy rv = true) :
    extract_image_url (some (Json.obj l)) = extract_from_result_value rv := by
  have hne : l ≠ [] := by
    intro h
    subst h
    simp [jlookup] at h1
  have ht : truthy (Json.obj l) = true := by
    simp [truthy, List.isEmpty_iff, hne]
  simp only [extract_image_url, ht, Bool.true_eq_false, if_false, getKey, h1, h2, if_true]
  cases rv with
  | null => rfl
  | bool b => rfl
  | num n => rfl
  | str s => rfl
  | obj d => rfl
  | arr xs =>
    cases xs with
    | nil => rfl
    | cons first rest => cases first <;> rfl

/-- When the dictionary has no present-and-truthy `result` entry, the
extraction is exactly the `elif` chain of lines 198-208. -/
theorem extract_elif_chain (l : List (String × Json))
    (h : no_truthy_result l = true) :
    extract_image_url (some (Json.obj l)) = elif_shapes (Json.obj l) := by
  cases hres : jlookup l "result" with
  | some rv =>
    have hf : truthy rv = false := by
      unfold no_truthy_result at h
      rw [hres] at h
      simpa using h
    have hne : l ≠ [] := by
      intro hh
      subst hh
      simp [jlookup] at hres
    have ht : truthy (Json.obj l) = true := by
      simp [truthy, List.isEmpty_iff, hne]
    simp [extract_image_url, ht, getKey, hres, hf]
  | none =>
    by_cases hnil : l = []
    · subst hnil; rfl
    · have ht : truthy (Json.obj l) = true := by
        simp [truthy, List.isEmpty_iff, hnil]
      simp [extract_image_url, ht, getKey, hres]

/-- Claim C8 counterexample: on a response whose truthy `result` value
matches none of the `result` shapes while `result_url` — a later shape in
the claimed priority order — is present, first-match-wins extraction would
yield `"http://y"`, but the source commits to the `result` branch, extracts
no URL and reports the generation as failed. -/
theorem extract_no_fallthrough :
    spec_shape_extract mixed_response = some "http://y" ∧
    extract_image_url (some mixed_response) = Except.ok none ∧
    generation_success (some mixed_response) = false :=
  ⟨rfl, rfl, rfl⟩

/-- Claim C8 (amended): the extraction dispatches on the first applicable
top-level key — committing to a present, truthy `result` value (preferring
`urls[0]` over `url` inside it) even when it yields no URL — and otherwise
tries `result_url`, then `url`, then `result_urls` in order.  Conjuncts
1-7: the three concrete examples behave as claimed (the `urls` shape
yields `"http://x/img.png"`, the `result_url` shape yields `"http://y"`,
an unrecognized shape yields no URL with generation reported failed) and
the mixed response fails.  Conjunct 8: with a truthy `result` entry, every
response extracts `extract_from_result_value` of that value alone — no
later shape is tried, whatever else the response holds.  Conjuncts 9-10:
a list-valued `result` probes its first element when that is a dict, and a
truthy dict-valued `result` is probed itself.  Conjuncts 11-13: inside the
probed dict, a non-empty `urls` list wins with its first element even when
`url` is also present, and `url` is used exactly when `urls` is absent or
falsy.  Conjuncts 14-16: with no truthy `result`, `result_url` wins first,
then `url`, then the first element of a non-empty `result_urls`. -/
theorem extract_examples_and_key_priority :
    extract_image_url (some ex_urls_response) =
      Except.ok (some (Json.str "http://x/img.png")) ∧
    generation_success (some ex_urls_response) = true ∧
    extract_image_url (some ex_result_url_response) =
      Except.ok (some (Json.str "http://y")) ∧
    generation_success (some ex_result_url_response) = true ∧
    extract_image_url (some ex_unrecognized) = Except.ok none ∧
    generation_success (some ex_unrecognized) = false ∧
    extract_image_url (some mixed_response) = Except.ok none ∧
    (∀ l rv, jlookup l "result" = some rv → truthy rv = true →
      extract_image_url (some (Json.obj l)) = extract_from_result_value rv) ∧
    (∀ l d rest, jlookup l "result" = some (Json.arr (Json.obj d :: rest)) →
      extract_image_url (some (Json.obj l)) = pick_urls_or_url (Json.obj d)) ∧
    (∀ l d, jlookup l "result" = some (Json.obj d) →
      truthy (Json.obj d) = true →
      extract_image_url (some (Json.obj l)) = pick_urls_or_url (Json.obj d)) ∧
    (∀ d x rest, getKey d "urls" = some (Json.arr (x :: rest)) →
      pick_urls_or_url d = Except.ok (some x)) ∧
    (∀ d v, getKey d "urls" = none → getKey d "url" = some v →
      pick_urls_or_url d = Except.ok (some v)) ∧
    (∀ d u v, getKey d "urls" = some u → truthy u = false →
      getKey d "url" = some v → pick_urls_or_url d = Except.ok (some v)) ∧
    (∀ l v, no_truthy_result l = true → jlookup l "result_url" = some v →
      extract_image_url (some (Json.obj l)) = Except.ok (some v)) ∧
    (∀ l v, no_truthy_result l = true → jlookup l "result_url" = none →
      jlookup l "url" = some v →
      extract_image_url (some (Json.obj l)) = Except.ok (some v)) ∧
    (∀ l v rest, no_truthy_result l = true → jlookup l "result_url" = none →
      jlookup l "url" = none →
      jlookup l "result_urls" = some (Json.arr (v :: rest)) →
      extract_image_url (some (Json.obj l)) = Except.ok (some v)) := by
  refine ⟨rfl, rfl, rfl, rfl, rfl, rfl, rfl, ?_, ?_, ?_, ?_, ?_, ?_, ?_, ?_, ?_⟩
  · intro l rv h1 h2
    exact extract_result_branch l rv h1 h2
  · intro l d rest h1
    exact extract_result_branch l _ h1 rfl
  · intro l d h1 h2
    exact extract_result_branch l _ h1 h2
  · intro d x rest h
    simp [pick_urls_or_url, h, truthy, index0]
  · intro d v h1 h2
    simp [pick_urls_or_url, h1, h2]
  · intro d u v h1 h2 h3
    simp [pick_urls_or_url, h1, h2, h3]
  · intro l v h h2
    rw [extract_elif_chain l h]
    simp [elif_shapes, getKey, h2]
  · intro l v h h2 h3
    rw [extract_elif_chain l h]
    simp [elif_shapes, getKey, h2, h3]
  · intro l v rest h h2 h3 h4
    rw [extract_elif_chain l h]
    simp [elif_shapes, getKey, h2, h3, h4, truthy, index0]

/-- Claim C8 witness: the chain steps at concrete dictionaries — a bare
`result_url` response, a bare `url` response, a `result_urls` response,
and the urls-over-url preference inside a `result` element. -/
theorem extract_key_priority_witness :
    extract_image_url (some (Json.obj [("result_url", Json.str "u")])) =
      Except.ok (some (Json.str "u")) ∧
    extract_image_url (some (Json.obj [("url", Json.str "v")])) =
      Except.ok (some (Json.str "v")) ∧
    extract_image_url (some (Json.obj [("result_urls", Json.arr [Json.str "w"])])) =
      Except.ok (some (Json.str "w")) ∧
    pick_urls_or_url
        (Json.obj [("urls", Json.arr [Json.str "a"]), ("url", Json.str "b")]) =
      Except.ok (some (Json.str "a")) := by
  obtain ⟨-, -, -, -, -, -, -, -, -, -, h11, -, -, h14, h15, h16⟩ :=
    extract_examples_and_key_priority
  exact ⟨h14 [("result_url", Json.str "u")] (Json.str "u") rfl rfl,
         h15 [("url", Json.str "v")] (Json.str "v") rfl rfl rfl,
         h16 [("result_urls", Json.arr [Json.str "w"])] (Json.str "w") [] rfl rfl rfl rfl,
         h11 (Json.obj [("urls", Json.arr [Json.str "a"]), ("url", Json.str "b")])
           (Json.str "a") [] rfl⟩

/-- Claim C10: `remove_background` with both image inputs absent raises the
`ValueError` before any HTTP request is built, and a request is only ever
issued when at least one of the two image inputs was provided. -/
theorem remove_background_requires_image (api_key : String) (cm : Bool) :
    remove_background api_key none none cm =
      Except.error "Either image_data or image_url must be provided" ∧
    (∀ image_data image_url r,
      remove_background api_key image_data image_url cm = Except.ok r →
      image_data.isSome = true ∨ image_url.isSome = true) := by
  constructor
  · rfl
  · intro image_data image_url r h
    by_cases hu : pyTruthyStr image_url = true
    · right
      cases image_url with
      | none => simp [pyTruthyStr] at hu
      | some s => rfl
    · by_cases hd : pyTruthyBytes image_data = true
      · left
        cases image_data with
        | none => simp [pyTruthyBytes] at hd
        | some b => rfl
      · rw [remove_background, if_neg hu, if_neg hd] at h
        exact absurd h (by simp)

/-- Claim C10 witness: providing bytes alone yields a request, discharging
the implication at a concrete call. -/
theorem remove_background_witness :
    (some [1] : Option (List Nat)).isSome = true ∨
    (none : Option String).isSome = true :=
  (remove_background_requires_image "k" true).2 (some [1]) none
    { api_token := "k",
      endpoint := "https://engine.prod.bria-api.com/v1/background/remove",
      has_image_url := false, has_file := true, content_moderation := true }
    rfl
